import Mathlib

/-!
Shallow embedding of the `github:team:create` scaffolder action
(`src/plugins/scaffolder-backend-module-github-team/src/actions/githubTeam.ts`).

The action is a single sequential pipeline: validate input, resolve a
credential (explicit token or provider-issued), create a team via the remote
API, then add each requested member with per-member error isolation.

External collaborators (the integration registry, the credentials provider,
and the two remote API operations) are modelled as an `Env` of functions
returning `Except String _` (a thrown JS `Error` is represented by its
message string). Every observable outbound call is recorded in a trace of
`Event`s, so that "zero calls to X" claims are statements about the trace.

JavaScript truthiness matters for fidelity: `if (!input.organization)`,
`if (token)`, `member.role || 'member'` and `input.privacy || 'closed'`
all treat the empty string like `undefined`; `strTruthy` / `optTruthy`
capture this.
-/

namespace GithubTeam

/-- JS string truthiness: the empty string is falsy. -/
def strTruthy (s : String) : Bool := s ≠ ""

/-- Truthiness of an optional string: `undefined` and `""` are falsy. -/
def optTruthy : Option String → Bool
  | none => false
  | some s => strTruthy s

/-- The single-quote character, used in the authentication error message. -/
def squoteChar : Char := Char.ofNat 39

/-- Wrap a string in single quotes, as the template literal
`'${input.organization}'` does. -/
def squote (s : String) : String :=
  String.singleton squoteChar ++ s ++ String.singleton squoteChar

/-- Characters `encodeURIComponent` leaves unescaped:
alphanumerics and `- _ . ! ~ * ' ( )`. -/
def isUnreservedURIChar (c : Char) : Bool :=
  c.isAlphanum || c = '-' || c = '_' || c = '.' || c = '!' || c = '~' ||
    c = '*' || c = squoteChar || c = '(' || c = ')'

/-- Uppercase hexadecimal digit for `n < 16`. -/
def hexDigit (n : Nat) : Char :=
  if n < 10 then Char.ofNat (48 + n) else Char.ofNat (55 + n)

/-- Percent-escape of one byte, e.g. `%2F`. -/
def percentByte (b : UInt8) : String :=
  String.mk ['%', hexDigit (b.toNat / 16), hexDigit (b.toNat % 16)]

/-- One character of `encodeURIComponent`: unreserved characters pass
through, everything else is UTF-8 percent-encoded. -/
def encodeURIComponentChar (c : Char) : String :=
  if isUnreservedURIChar c then String.singleton c
  else String.join ((String.utf8EncodeChar c).map percentByte)

/-- The JS builtin `encodeURIComponent`, applied to the owner when building
the organization-scoped credential URL. -/
def encodeURIComponent (s : String) : String :=
  String.join (s.toList.map encodeURIComponentChar)

/-- One entry of the action input's `members` array:
`{ username, role? }` with `role ∈ {member, maintainer}` optional. -/
structure MemberSpec where
  username : String
  role : Option String
deriving DecidableEq

/-- The action input after schema validation: `organization` and `teamName`
are required strings, the rest optional. -/
structure ActionInput where
  organization : String
  teamName : String
  description : Option String
  privacy : Option String
  members : Option (List MemberSpec)
  token : Option String
deriving DecidableEq

/-- The part of the per-host integration config the action reads. -/
structure IntegrationConfig where
  apiBaseUrl : String
deriving DecidableEq

/-- Result of `getCredentials`: the destructured `{ token }`, which may be
absent. -/
structure Credentials where
  token : Option String
deriving DecidableEq

/-- The `data` of the create-team response that the handler reads. -/
structure TeamData where
  id : Nat
  slug : String
  html_url : String
  name : String
deriving DecidableEq

/-- The options object returned by `getOctokitOptionsForOrg`. -/
structure OctokitOptions where
  auth : String
  baseUrl : String
  previews : List String
  timeout : Nat
deriving DecidableEq

/-- A successfully added member, as pushed onto `memberResults.added`. -/
structure MemberAdded where
  username : String
  role : String
deriving DecidableEq

/-- A failed member addition, as pushed onto `memberResults.failed`. -/
structure MemberFailed where
  username : String
  role : String
  error : String
deriving DecidableEq

/-- The five output fields the handler emits on success. -/
structure ActionOutput where
  teamId : Nat
  teamUrl : String
  teamSlug : String
  membersAdded : List MemberAdded
  membersFailed : List MemberFailed
deriving DecidableEq

/-- Observable outbound calls made during one invocation, in order. -/
inductive Event where
  /-- `integrations.github.byHost(host)` -/
  | byHost (host : String)
  /-- `githubCredentialsProvider.getCredentials({ url })` -/
  | getCredentials (url : String)
  /-- `new Octokit({ auth, baseUrl, ... })` -/
  | createClient (auth : String) (baseUrl : String)
  /-- `octokit.rest.teams.create({ org, name, description, privacy })` -/
  | createTeam (org : String) (name : String) (description : Option String)
      (privacy : String)
  /-- `octokit.rest.teams.addOrUpdateMembershipForUserInOrg({ org, team_slug, username, role })` -/
  | addMembership (org : String) (team_slug : String) (username : String)
      (role : String)
deriving DecidableEq

/-- The external collaborators, as deterministic functions of the call
arguments. A `.error msg` models a rejected promise / thrown `Error`
whose `message` is `msg`. `credentialsProvider` is the optionally
configured `GithubCredentialsProvider`; when absent the code falls back to
`DefaultGithubCredentialsProvider.fromIntegrations(integrations)`, modelled
by `defaultCredentialsProvider`. -/
structure Env where
  byHost : String → Option IntegrationConfig
  credentialsProvider : Option (String → Except String Credentials)
  defaultCredentialsProvider : String → Except String Credentials
  createTeam : String → String → Option String → String →
    Except String TeamData
  addOrUpdateMembership : String → String → String → String →
    Except String Unit

/-- The fixed 60-second request timeout (`timeout: 60000`). -/
def requestTimeout : Nat := 60000

/-- `` `No integration for host ${host}` `` -/
def noIntegrationMsg (host : String) : String :=
  "No integration for host " ++ host

/-- The exact message thrown when no owner is available for GitHub App
authentication. -/
def noOwnerMsg : String :=
  "No organization/owner provided, which is required for GitHub App authentication"

/-- `` `No token available for host: ${host}, with owner ${owner}. ...` `` -/
def noTokenMsg (host owner : String) : String :=
  "No token available for host: " ++ host ++ ", with owner " ++ owner ++
    ". Make sure GitHub App is installed on the organization."

/-- The organization-scoped credential URL
`` `https://${host}/${encodeURIComponent(owner)}` ``. -/
def credentialUrl (host owner : String) : String :=
  "https://" ++ host ++ "/" ++ encodeURIComponent owner

/-- Embedding of `getOctokitOptionsForOrg`. Returns the trace of outbound
calls it makes together with its result (options, or the thrown error's
message). -/
def getOctokitOptionsForOrg (env : Env) (token : Option String)
    (host owner : String) : List Event × Except String OctokitOptions :=
  match env.byHost host with
  | none => ([Event.byHost host], .error (noIntegrationMsg host))
  | some integrationConfig =>
    if optTruthy token then
      ([Event.byHost host],
       .ok { auth := token.getD "", baseUrl := integrationConfig.apiBaseUrl,
             previews := ["nebula-preview"], timeout := requestTimeout })
    else if strTruthy owner = false then
      ([Event.byHost host], .error noOwnerMsg)
    else
      let githubCredentialsProvider :=
        env.credentialsProvider.getD env.defaultCredentialsProvider
      let url := credentialUrl host owner
      match githubCredentialsProvider url with
      | .error e =>
        ([Event.byHost host, Event.getCredentials url], .error e)
      | .ok creds =>
        if optTruthy creds.token = false then
          ([Event.byHost host, Event.getCredentials url],
           .error (noTokenMsg host owner))
        else
          ([Event.byHost host, Event.getCredentials url],
           .ok { auth := creds.token.getD "",
                 baseUrl := integrationConfig.apiBaseUrl,
                 previews := ["nebula-preview"], timeout := requestTimeout })

/-- `member.role || 'member'`. -/
def resolvedRole (m : MemberSpec) : String :=
  match m.role with
  | some r => if strTruthy r then r else "member"
  | none => "member"

/-- `input.privacy || 'closed'`. -/
def resolvedPrivacy (input : ActionInput) : String :=
  match input.privacy with
  | some p => if strTruthy p then p else "closed"
  | none => "closed"

/-- The member list the loop iterates over:
`if (input.members && input.members.length > 0)` guards the loop. -/
def effectiveMembers (input : ActionInput) : List MemberSpec :=
  match input.members with
  | some ms => if ms.length > 0 then ms else []
  | none => []

/-- The per-member provisioning loop: one `addOrUpdateMembership` call per
member in input order; a success is pushed onto `added`, a failure is
caught and pushed onto `failed` with the error message, and the loop
continues. Returns (events, added, failed). -/
def provisionMembers (env : Env) (org slug : String) :
    List MemberSpec → List Event × List MemberAdded × List MemberFailed
  | [] => ([], [], [])
  | m :: rest =>
    let role := resolvedRole m
    let ev := Event.addMembership org slug m.username role
    let tail := provisionMembers env org slug rest
    match env.addOrUpdateMembership org slug m.username role with
    | .ok _ =>
      (ev :: tail.1, ⟨m.username, role⟩ :: tail.2.1, tail.2.2)
    | .error e =>
      (ev :: tail.1, tail.2.1, ⟨m.username, role, e⟩ :: tail.2.2)

/-- `"Organization name is required but was not provided"`. -/
def orgRequiredMsg : String :=
  "Organization name is required but was not provided"

/-- `` `Failed to authenticate with GitHub for organization '${org}': ${msg}` `` -/
def authFailMsg (org msg : String) : String :=
  "Failed to authenticate with GitHub for organization " ++ squote org ++
    ": " ++ msg

/-- `` `GitHub team creation failed: ${msg}` `` -/
def teamCreationFailMsg (msg : String) : String :=
  "GitHub team creation failed: " ++ msg

/-- Embedding of the action `handler`. Returns the trace of outbound calls
together with the outcome: `.ok` with the five output fields, or `.error`
with the thrown error's message. The host is the literal `"github.com"`
exactly as in the source. -/
def handler (env : Env) (input : ActionInput) :
    List Event × Except String ActionOutput :=
  if strTruthy input.organization = false then
    ([], .error orgRequiredMsg)
  else
    let res := getOctokitOptionsForOrg env input.token "github.com"
      input.organization
    match res.2 with
    | .error e => (res.1, .error (authFailMsg input.organization e))
    | .ok octokitOptions =>
      let privacy := resolvedPrivacy input
      match env.createTeam input.organization input.teamName
        input.description privacy with
      | .error e =>
        (res.1 ++
           [Event.createClient octokitOptions.auth octokitOptions.baseUrl,
            Event.createTeam input.organization input.teamName
              input.description privacy],
         .error (teamCreationFailMsg e))
      | .ok team =>
        let pm := provisionMembers env input.organization team.slug
          (effectiveMembers input)
        (res.1 ++
           [Event.createClient octokitOptions.auth octokitOptions.baseUrl,
            Event.createTeam input.organization input.teamName
              input.description privacy] ++ pm.1,
         .ok { teamId := team.id, teamUrl := team.html_url,
               teamSlug := team.slug, membersAdded := pm.2.1,
               membersFailed := pm.2.2 })

/-! Concrete fixtures used to instantiate the theorems, mirroring the
values in `githubTeam.test.ts`. -/

/-- A github.com integration config as in the test fixture. -/
def cfgGithub : IntegrationConfig := ⟨"https://api.github.com"⟩

/-- A credentials provider that always returns a token. -/
def okCreds : String → Except String Credentials :=
  fun _ => .ok ⟨some "mock-github-token"⟩

/-- The created-team response used in the tests. -/
def teamTest : TeamData :=
  ⟨12345, "test-team", "https://github.com/orgs/test-org/teams/test-team",
    "test-team"⟩

/-- Base environment: integration configured, provider returns a token,
team creation succeeds, memberships succeed except for `invaliduser`. -/
def envBase : Env where
  byHost := fun _ => some cfgGithub
  credentialsProvider := some okCreds
  defaultCredentialsProvider := okCreds
  createTeam := fun _ _ _ _ => .ok teamTest
  addOrUpdateMembership := fun _ _ u _ =>
    if u = "invaliduser" then .error "User not found" else .ok ()

/-- Environment with no integration configured for any host. -/
def envNoIntegration : Env where
  byHost := fun _ => none
  credentialsProvider := some okCreds
  defaultCredentialsProvider := okCreds
  createTeam := fun _ _ _ _ => .ok teamTest
  addOrUpdateMembership := fun _ _ _ _ => .ok ()

/-- Environment whose credentials provider rejects. -/
def envCredFail : Env where
  byHost := fun _ => some cfgGithub
  credentialsProvider :=
    some (fun _ => .error "GitHub App not installed on organization")
  defaultCredentialsProvider := okCreds
  createTeam := fun _ _ _ _ => .ok teamTest
  addOrUpdateMembership := fun _ _ _ _ => .ok ()

/-- Environment whose create-team call rejects. -/
def envCreateFail : Env where
  byHost := fun _ => some cfgGithub
  credentialsProvider := some okCreds
  defaultCredentialsProvider := okCreds
  createTeam := fun _ _ _ _ =>
    .error "Validation Failed: Name must be unique for this org"
  addOrUpdateMembership := fun _ _ _ _ => .ok ()

/-- Environment where the remote normalizes the team name into a
different slug. -/
def envSlugDiffers : Env where
  byHost := fun _ => some cfgGithub
  credentialsProvider := some okCreds
  defaultCredentialsProvider := okCreds
  createTeam := fun _ _ _ _ =>
    .ok ⟨99, "my-team", "https://github.com/orgs/test-org/teams/my-team",
      "My Team"⟩
  addOrUpdateMembership := fun _ _ _ _ => .ok ()

/-- A basic input with no members and no token. -/
def inputBasic : ActionInput :=
  { organization := "test-org", teamName := "test-team",
    description := some "Test team", privacy := some "closed",
    members := none, token := none }

/-- Input with one member that will succeed and one that will fail. -/
def inputMixed : ActionInput :=
  { inputBasic with
    members := some [⟨"validuser", some "member"⟩,
      ⟨"invaliduser", some "maintainer"⟩] }

/-- Input listing the same username twice. -/
def inputDup : ActionInput :=
  { inputBasic with
    members := some [⟨"alice", some "member"⟩, ⟨"alice", some "member"⟩] }

/-- Input whose token field is present but empty (JS-falsy). -/
def inputEmptyToken : ActionInput := { inputBasic with token := some "" }

/-- Input with a non-empty user-provided token. -/
def inputUserToken : ActionInput :=
  { inputBasic with token := some "user-provided-token" }

/-- Input with an empty organization. -/
def inputNoOrg : ActionInput := { inputBasic with organization := "" }

/-- Input whose team name differs from the slug `envSlugDiffers` returns. -/
def inputMyTeam : ActionInput :=
  { inputBasic with
    teamName := "My Team"
    members := some [⟨"validuser", some "member"⟩] }

/-- Input for the organization used in the failing-credentials scenario. -/
def inputUnauthorized : ActionInput :=
  { inputBasic with organization := "unauthorized-org" }

/-- The output the handler produces for `envBase` and `inputDup`. -/
def outDup : ActionOutput :=
  ⟨12345, "https://github.com/orgs/test-org/teams/test-team", "test-team",
    [⟨"alice", "member"⟩, ⟨"alice", "member"⟩], []⟩

/-- Is an event a `getCredentials` call? -/
def isGetCredentialsEvent : Event → Bool
  | .getCredentials _ => true
  | _ => false

/-- Is an event a `byHost` lookup? -/
def isByHostEvent : Event → Bool
  | .byHost _ => true
  | _ => false

/-- Is an event a `teams.create` call? -/
def isCreateTeamEvent : Event → Bool
  | .createTeam _ _ _ _ => true
  | _ => false

/-- Is an event an `addOrUpdateMembershipForUserInOrg` call? -/
def isAddMembershipEvent : Event → Bool
  | .addMembership _ _ _ _ => true
  | _ => false

/-! Helper lemmas about the member-provisioning loop. -/

theorem provisionMembers_events (env : Env) (org slug : String)
    (ms : List MemberSpec) :
    (provisionMembers env org slug ms).1 =
      ms.map (fun m =>
        Event.addMembership org slug m.username (resolvedRole m)) := by
  induction ms with
  | nil => rfl
  | cons m rest ih =>
    simp only [provisionMembers, List.map_cons]
    cases h : env.addOrUpdateMembership org slug m.username (resolvedRole m) <;>
      simp [ih]

theorem provisionMembers_length (env : Env) (org slug : String)
    (ms : List MemberSpec) :
    (provisionMembers env org slug ms).2.1.length +
      (provisionMembers env org slug ms).2.2.length = ms.length := by
  induction ms with
  | nil => rfl
  | cons m rest ih =>
    simp only [provisionMembers]
    cases h : env.addOrUpdateMembership org slug m.username (resolvedRole m) <;>
      simp <;> omega

theorem provisionMembers_added_sublist (env : Env) (org slug : String)
    (ms : List MemberSpec) :
    ((provisionMembers env org slug ms).2.1.map MemberAdded.username).Sublist
      (ms.map MemberSpec.username) := by
  induction ms with
  | nil => simp [provisionMembers]
  | cons m rest ih =>
    simp only [provisionMembers, List.map_cons]
    cases h : env.addOrUpdateMembership org slug m.username (resolvedRole m)
    · simpa using List.Sublist.cons m.username ih
    · simpa using List.Sublist.cons₂ m.username ih

theorem provisionMembers_failed_sublist (env : Env) (org slug : String)
    (ms : List MemberSpec) :
    ((provisionMembers env org slug ms).2.2.map MemberFailed.username).Sublist
      (ms.map MemberSpec.username) := by
  induction ms with
  | nil => simp [provisionMembers]
  | cons m rest ih =>
    simp only [provisionMembers, List.map_cons]
    cases h : env.addOrUpdateMembership org slug m.username (resolvedRole m)
    · simpa using List.Sublist.cons₂ m.username ih
    · simpa using List.Sublist.cons m.username ih

theorem provisionMembers_count (env : Env) (org slug : String)
    (ms : List MemberSpec) (u : String) :
    ((provisionMembers env org slug ms).2.1.map MemberAdded.username).count u +
      ((provisionMembers env org slug ms).2.2.map MemberFailed.username).count u =
      (ms.map MemberSpec.username).count u := by
  induction ms with
  | nil => rfl
  | cons m rest ih =>
    simp only [provisionMembers, List.map_cons]
    cases h : env.addOrUpdateMembership org slug m.username (resolvedRole m) <;>
      simp [List.count_cons] <;> omega

theorem provisionMembers_failed_mem (env : Env) (org slug : String)
    (ms : List MemberSpec) (m : MemberSpec) (e : String)
    (hm : m ∈ ms)
    (he : env.addOrUpdateMembership org slug m.username (resolvedRole m) =
      .error e) :
    (⟨m.username, resolvedRole m, e⟩ : MemberFailed) ∈
      (provisionMembers env org slug ms).2.2 := by
  induction ms with
  | nil => cases hm
  | cons m0 rest ih =>
    simp only [provisionMembers]
    rcases List.mem_cons.mp hm with h0 | h0
    · subst h0
      rw [he]
      simp
    · cases h : env.addOrUpdateMembership org slug m0.username
        (resolvedRole m0) <;> simp [ih h0]

theorem provisionMembers_added_mem (env : Env) (org slug : String)
    (ms : List MemberSpec) (m : MemberSpec)
    (hm : m ∈ ms)
    (he : env.addOrUpdateMembership org slug m.username (resolvedRole m) =
      .ok ()) :
    (⟨m.username, resolvedRole m⟩ : MemberAdded) ∈
      (provisionMembers env org slug ms).2.1 := by
  induction ms with
  | nil => cases hm
  | cons m0 rest ih =>
    simp only [provisionMembers]
    rcases List.mem_cons.mp hm with h0 | h0
    · subst h0
      rw [he]
      simp
    · cases h : env.addOrUpdateMembership org slug m0.username
        (resolvedRole m0) <;> simp [ih h0]

/-! Helper lemmas about the credential resolver. -/

theorem getOctokitOptionsForOrg_noIntegration (env : Env)
    (token : Option String) (host owner : String)
    (hb : env.byHost host = none) :
    getOctokitOptionsForOrg env token host owner =
      ([Event.byHost host], .error (noIntegrationMsg host)) := by
  simp [getOctokitOptionsForOrg, hb]

theorem getOctokitOptionsForOrg_token_branch (env : Env)
    (token : Option String) (host owner : String) (cfg : IntegrationConfig)
    (hb : env.byHost host = some cfg) (ht : optTruthy token = true) :
    getOctokitOptionsForOrg env token host owner =
      ([Event.byHost host],
       .ok { auth := token.getD "", baseUrl := cfg.apiBaseUrl,
             previews := ["nebula-preview"], timeout := requestTimeout }) := by
  simp [getOctokitOptionsForOrg, hb, ht]

theorem getOctokitOptionsForOrg_cred_error (env : Env)
    (token : Option String) (host owner : String) (cfg : IntegrationConfig)
    (e : String)
    (hb : env.byHost host = some cfg)
    (ht : optTruthy token = false)
    (ho : strTruthy owner = true)
    (hc : (env.credentialsProvider.getD env.defaultCredentialsProvider)
      (credentialUrl host owner) = .error e) :
    getOctokitOptionsForOrg env token host owner =
      ([Event.byHost host, Event.getCredentials (credentialUrl host owner)],
       .error e) := by
  simp [getOctokitOptionsForOrg, hb, ht, ho, hc]

theorem getOctokitOptionsForOrg_trace (env : Env) (token : Option String)
    (host owner : String) :
    (getOctokitOptionsForOrg env token host owner).1 =
      [Event.byHost host] ∨
    (getOctokitOptionsForOrg env token host owner).1 =
      [Event.byHost host,
       Event.getCredentials (credentialUrl host owner)] := by
  unfold getOctokitOptionsForOrg
  cases hb : env.byHost host
  · simp
  · by_cases ht : optTruthy token
    · simp [ht]
    · by_cases ho : strTruthy owner
      · cases hc : (env.credentialsProvider.getD
          env.defaultCredentialsProvider) (credentialUrl host owner)
        · simp [ht, ho, hc]
        · rename_i creds
          by_cases hk : optTruthy creds.token <;> simp [ht, ho, hc, hk]
      · simp [ht, ho]

theorem resolver_trace_mem (env : Env) (token : Option String)
    (host owner : String) (e : Event)
    (he : e ∈ (getOctokitOptionsForOrg env token host owner).1) :
    e = Event.byHost host ∨
      e = Event.getCredentials (credentialUrl host owner) := by
  rcases getOctokitOptionsForOrg_trace env token host owner with ht | ht <;>
    rw [ht] at he <;> simp at he <;> tauto

theorem getOctokitOptionsForOrg_token_no_cred_calls (env : Env)
    (token : Option String) (host owner : String)
    (ht : optTruthy token = true) :
    (getOctokitOptionsForOrg env token host owner).1 =
      [Event.byHost host] := by
  unfold getOctokitOptionsForOrg
  cases hb : env.byHost host <;> simp [ht]

/-! Helper lemmas characterizing the handler's branches. -/

theorem handler_org_falsy (env : Env) (input : ActionInput)
    (h : strTruthy input.organization = false) :
    handler env input = ([], .error orgRequiredMsg) := by
  simp [handler, h]

theorem handler_auth_error (env : Env) (input : ActionInput) (e : String)
    (h1 : strTruthy input.organization = true)
    (h2 : (getOctokitOptionsForOrg env input.token "github.com"
      input.organization).2 = .error e) :
    handler env input =
      ((getOctokitOptionsForOrg env input.token "github.com"
          input.organization).1,
       .error (authFailMsg input.organization e)) := by
  simp [handler, h1, h2]

theorem handler_create_error (env : Env) (input : ActionInput)
    (opts : OctokitOptions) (e : String)
    (h1 : strTruthy input.organization = true)
    (h2 : (getOctokitOptionsForOrg env input.token "github.com"
      input.organization).2 = .ok opts)
    (h3 : env.createTeam input.organization input.teamName input.description
      (resolvedPrivacy input) = .error e) :
    handler env input =
      ((getOctokitOptionsForOrg env input.token "github.com"
          input.organization).1 ++
         [Event.createClient opts.auth opts.baseUrl,
          Event.createTeam input.organization input.teamName
            input.description (resolvedPrivacy input)],
       .error (teamCreationFailMsg e)) := by
  simp [handler, h1, h2, h3]

theorem handler_team_ok (env : Env) (input : ActionInput)
    (opts : OctokitOptions) (team : TeamData)
    (h1 : strTruthy input.organization = true)
    (h2 : (getOctokitOptionsForOrg env input.token "github.com"
      input.organization).2 = .ok opts)
    (h3 : env.createTeam input.organization input.teamName input.description
      (resolvedPrivacy input) = .ok team) :
    handler env input =
      ((getOctokitOptionsForOrg env input.token "github.com"
          input.organization).1 ++
         [Event.createClient opts.auth opts.baseUrl,
          Event.createTeam input.organization input.teamName
            input.description (resolvedPrivacy input)] ++
         (provisionMembers env input.organization team.slug
           (effectiveMembers input)).1,
       .ok { teamId := team.id, teamUrl := team.html_url,
             teamSlug := team.slug,
             membersAdded := (provisionMembers env input.organization
               team.slug (effectiveMembers input)).2.1,
             membersFailed := (provisionMembers env input.organization
               team.slug (effectiveMembers input)).2.2 }) := by
  simp [handler, h1, h2, h3]

/-- Every event in a handler trace is either the host lookup, the
credential fetch for the organization-scoped URL, or a client/remote-API
event (which is neither a `byHost` nor a `getCredentials` call). -/
theorem handler_trace_cases (env : Env) (input : ActionInput) (e : Event)
    (he : e ∈ (handler env input).1) :
    e = Event.byHost "github.com" ∨
    e = Event.getCredentials
      (credentialUrl "github.com" input.organization) ∨
    (isByHostEvent e = false ∧ isGetCredentialsEvent e = false) := by
  cases h1 : strTruthy input.organization
  · rw [handler_org_falsy env input h1] at he
    simp at he
  · cases h2 : (getOctokitOptionsForOrg env input.token "github.com"
      input.organization).2
    case error e0 =>
      rw [handler_auth_error env input e0 h1 h2] at he
      rcases resolver_trace_mem env input.token "github.com"
        input.organization e he with h | h
      · exact Or.inl h
      · exact Or.inr (Or.inl h)
    case ok opts =>
      cases h3 : env.createTeam input.organization input.teamName
        input.description (resolvedPrivacy input)
      case error e0 =>
        rw [handler_create_error env input opts e0 h1 h2 h3] at he
        rw [List.mem_append] at he
        rcases he with he | he
        · rcases resolver_trace_mem env input.token "github.com"
            input.organization e he with h | h
          · exact Or.inl h
          · exact Or.inr (Or.inl h)
        · simp at he
          rcases he with he | he <;> subst he <;>
            exact Or.inr (Or.inr ⟨rfl, rfl⟩)
      case ok team =>
        rw [handler_team_ok env input opts team h1 h2 h3] at he
        rw [List.append_assoc, List.mem_append] at he
        rcases he with he | he
        · rcases resolver_trace_mem env input.token "github.com"
            input.organization e he with h | h
          · exact Or.inl h
          · exact Or.inr (Or.inl h)
        · rw [List.mem_append] at he
          rcases he with he | he
          · simp at he
            rcases he with he | he <;> subst he <;>
              exact Or.inr (Or.inr ⟨rfl, rfl⟩)
          · rw [provisionMembers_events] at he
            rcases List.mem_map.mp he with ⟨m, _, hm⟩
            subst hm
            exact Or.inr (Or.inr ⟨rfl, rfl⟩)

/-- A mapped list of `addMembership` events is fixed by the
`isAddMembershipEvent` filter. -/
theorem filter_addMembership_map (org slug : String)
    (ms : List MemberSpec) :
    ((ms.map (fun m =>
        Event.addMembership org slug m.username (resolvedRole m))).filter
      isAddMembershipEvent) =
      ms.map (fun m =>
        Event.addMembership org slug m.username (resolvedRole m)) := by
  induction ms with
  | nil => rfl
  | cons m rest ih => simp [List.filter, isAddMembershipEvent, ih]

/-- A mapped list of `addMembership` events holds no `getCredentials`
events. -/
theorem filter_getCredentials_addMembership_map (org slug : String)
    (ms : List MemberSpec) :
    ((ms.map (fun m =>
        Event.addMembership org slug m.username (resolvedRole m))).filter
      isGetCredentialsEvent) = [] := by
  induction ms with
  | nil => rfl
  | cons m rest ih => simp [List.filter, isGetCredentialsEvent, ih]

/-- When the explicit token is truthy and the resolver succeeds, the
returned auth is that token. -/
theorem resolver_token_auth (env : Env) (t : String) (host owner : String)
    (opts : OctokitOptions)
    (hne : strTruthy t = true)
    (h2 : (getOctokitOptionsForOrg env (some t) host owner).2 = .ok opts) :
    opts.auth = t := by
  cases hb : env.byHost host
  · rw [getOctokitOptionsForOrg_noIntegration env (some t) host owner hb]
      at h2
    cases h2
  · rename_i cfg
    rw [getOctokitOptionsForOrg_token_branch env (some t) host owner cfg hb
      (by simpa [optTruthy] using hne)] at h2
    injection h2 with h
    subst h
    rfl

/-- C5: for every input whose organization is empty (the JS-falsy check
`!input.organization`, which also models an absent field), the handler
throws exactly "Organization name is required but was not provided" with
an empty trace — zero integration lookups, zero credential calls, zero
remote API calls. -/
theorem C5_missing_organization_fails_before_any_call (env : Env)
    (input : ActionInput) (h : input.organization = "") :
    handler env input =
      ([], .error "Organization name is required but was not provided") :=
  handler_org_falsy env input (by simp [strTruthy, h])

/-- Witness for C5 at a concrete environment and input. -/
theorem C5_missing_organization_witness :
    handler envBase inputNoOrg =
      ([], .error "Organization name is required but was not provided") :=
  C5_missing_organization_fails_before_any_call envBase inputNoOrg rfl

/-- C3: whenever the remote create-team call fails, the handler makes zero
add-or-update-membership calls and throws exactly
"GitHub team creation failed: " concatenated with the underlying error's
message. -/
theorem C3_team_creation_failure_is_terminal (env : Env)
    (input : ActionInput) (opts : OctokitOptions) (e : String)
    (h1 : strTruthy input.organization = true)
    (h2 : (getOctokitOptionsForOrg env input.token "github.com"
      input.organization).2 = .ok opts)
    (h3 : env.createTeam input.organization input.teamName input.description
      (resolvedPrivacy input) = .error e) :
    (handler env input).2 = .error ("GitHub team creation failed: " ++ e) ∧
    (handler env input).1.filter isAddMembershipEvent = [] := by
  rw [handler_create_error env input opts e h1 h2 h3]
  refine ⟨rfl, ?_⟩
  rcases getOctokitOptionsForOrg_trace env input.token "github.com"
    input.organization with ht | ht <;> rw [ht] <;> rfl

/-- Witness for C3 at a concrete environment and input. -/
theorem C3_team_creation_failure_witness :
    (handler envCreateFail inputBasic).2 =
      .error ("GitHub team creation failed: " ++
        "Validation Failed: Name must be unique for this org") ∧
    (handler envCreateFail inputBasic).1.filter isAddMembershipEvent = [] :=
  C3_team_creation_failure_is_terminal envCreateFail inputBasic
    ⟨"mock-github-token", "https://api.github.com", ["nebula-preview"],
      60000⟩
    "Validation Failed: Name must be unique for this org" rfl rfl rfl

/-- C6: for every input without an explicit token, if the credential
provider throws, the handler throws exactly
"Failed to authenticate with GitHub for organization '" + organization +
"': " + the underlying message; the raw error is never surfaced bare. -/
theorem C6_credential_failure_is_wrapped (env : Env) (input : ActionInput)
    (cfg : IntegrationConfig) (e : String)
    (h1 : strTruthy input.organization = true)
    (htok : input.token = none)
    (hb : env.byHost "github.com" = some cfg)
    (hc : (env.credentialsProvider.getD env.defaultCredentialsProvider)
      (credentialUrl "github.com" input.organization) = .error e) :
    (handler env input).2 =
      .error ("Failed to authenticate with GitHub for organization " ++
        squote input.organization ++ ": " ++ e) := by
  have h2 : (getOctokitOptionsForOrg env input.token "github.com"
      input.organization).2 = .error e := by
    rw [htok, getOctokitOptionsForOrg_cred_error env none "github.com"
      input.organization cfg e hb rfl h1 hc]
  rw [handler_auth_error env input e h1 h2]
  rfl

/-- Witness for C6 at a concrete environment and input. -/
theorem C6_credential_failure_witness :
    (handler envCredFail inputUnauthorized).2 =
      .error ("Failed to authenticate with GitHub for organization " ++
        squote "unauthorized-org" ++ ": " ++
        "GitHub App not installed on organization") :=
  C6_credential_failure_is_wrapped envCredFail inputUnauthorized cfgGithub
    "GitHub App not installed on organization" rfl rfl rfl rfl

/-- C7 counterexample: with no integration configured for the host, the
action's thrown message is the authentication wrapper around the
configuration message, not the bare configuration message — the claim
that the configuration failure is surfaced "as such ... rather than as an
authentication error" is false on the code. -/
theorem C7_configuration_error_counterexample :
    (handler envNoIntegration inputBasic).2 =
      .error ("Failed to authenticate with GitHub for organization " ++
        squote "test-org" ++ ": " ++ "No integration for host github.com") ∧
    (handler envNoIntegration inputBasic).2 ≠
      .error "No integration for host github.com" := by
  refine ⟨rfl, ?_⟩
  intro h
  rw [(rfl : (handler envNoIntegration inputBasic).2 =
    .error ("Failed to authenticate with GitHub for organization " ++
      squote "test-org" ++ ": " ++ "No integration for host github.com"))]
    at h
  exact absurd (Except.error.inj h) (by decide)

/-- C7 amended: when no integration configuration exists for the target
host, the action fails immediately — the trace holds only the failed
lookup, so zero credential and zero remote calls occur — and the error it
throws is the authentication wrapper whose text carries the distinct
configuration message "No integration for host github.com". -/
theorem C7_configuration_error_amended (env : Env) (input : ActionInput)
    (h1 : strTruthy input.organization = true)
    (hb : env.byHost "github.com" = none) :
    handler env input =
      ([Event.byHost "github.com"],
       .error (authFailMsg input.organization
         (noIntegrationMsg "github.com"))) := by
  have h2 := getOctokitOptionsForOrg_noIntegration env input.token
    "github.com" input.organization hb
  rw [handler_auth_error env input (noIntegrationMsg "github.com") h1
    (by rw [h2]), h2]

/-- Witness for the amended C7 at a concrete environment and input. -/
theorem C7_configuration_error_witness :
    handler envNoIntegration inputBasic =
      ([Event.byHost "github.com"],
       .error (authFailMsg "test-org" (noIntegrationMsg "github.com"))) :=
  C7_configuration_error_amended envNoIntegration inputBasic rfl rfl

/-- C9: an explicit token does not let the invocation proceed without a
configured integration — the host lookup happens before the
explicit-token short-circuit, and its failure aborts the action (wrapped
by the handler's catch), with zero credential and zero remote calls. -/
theorem C9_token_does_not_bypass_integration (env : Env)
    (input : ActionInput) (t : String)
    (h1 : strTruthy input.organization = true)
    (htok : input.token = some t)
    (hb : env.byHost "github.com" = none) :
    handler env input =
      ([Event.byHost "github.com"],
       .error (authFailMsg input.organization
         (noIntegrationMsg "github.com"))) := by
  have h2 := getOctokitOptionsForOrg_noIntegration env input.token
    "github.com" input.organization hb
  rw [handler_auth_error env input (noIntegrationMsg "github.com") h1
    (by rw [h2]), h2]

/-- Witness for C9 at a concrete environment and input. -/
theorem C9_token_does_not_bypass_witness :
    handler envNoIntegration inputUserToken =
      ([Event.byHost "github.com"],
       .error (authFailMsg "test-org" (noIntegrationMsg "github.com"))) :=
  C9_token_does_not_bypass_integration envNoIntegration inputUserToken
    "user-provided-token" rfl rfl rfl

/-- C4 counterexample: a present-but-empty token is JS-falsy, so the code
falls through to the credential provider — `getCredentials` is invoked
once even though the token field is present, and the client's auth is the
provider's token rather than the supplied one. -/
theorem C4_explicit_token_counterexample :
    inputEmptyToken.token = some "" ∧
    ((handler envBase inputEmptyToken).1.filter
      isGetCredentialsEvent).length = 1 ∧
    Event.createClient "mock-github-token" "https://api.github.com" ∈
      (handler envBase inputEmptyToken).1 := by
  refine ⟨rfl, rfl, ?_⟩
  decide

/-- C4 amended: for every input whose token field is present and
non-empty, the credential-issuing capability is invoked zero times —
regardless of whether a provider is configured — and any client the
handler constructs uses the supplied token as its auth. -/
theorem C4_explicit_token_amended (env : Env) (input : ActionInput)
    (t : String)
    (htok : input.token = some t) (hne : t ≠ "") :
    (handler env input).1.filter isGetCredentialsEvent = [] ∧
    ∀ a b, Event.createClient a b ∈ (handler env input).1 → a = t := by
  have hst : strTruthy t = true := by simpa [strTruthy] using hne
  have ht : optTruthy input.token = true := by rw [htok]; simpa [optTruthy]
  have htr := getOctokitOptionsForOrg_token_no_cred_calls env input.token
    "github.com" input.organization ht
  cases h1 : strTruthy input.organization
  · rw [handler_org_falsy env input h1]
    exact ⟨rfl, by intro a b h; simp at h⟩
  · cases h2 : (getOctokitOptionsForOrg env input.token "github.com"
      input.organization).2
    case error e0 =>
      rw [handler_auth_error env input e0 h1 h2, htr]
      exact ⟨rfl, by intro a b h; simp at h⟩
    case ok opts =>
      have hauth : opts.auth = t :=
        resolver_token_auth env t "github.com" input.organization opts hst
          (by rw [← htok]; exact h2)
      cases h3 : env.createTeam input.organization input.teamName
        input.description (resolvedPrivacy input)
      case error e0 =>
        rw [handler_create_error env input opts e0 h1 h2 h3, htr]
        refine ⟨rfl, ?_⟩
        intro a b h
        simp at h
        rw [h.1]
        exact hauth
      case ok team =>
        rw [handler_team_ok env input opts team h1 h2 h3, htr]
        constructor
        · rw [List.append_assoc, List.filter_append, List.filter_append,
            provisionMembers_events,
            filter_getCredentials_addMembership_map]
          rfl
        · intro a b h
          rw [List.append_assoc, List.mem_append] at h
          rcases h with h | h
          · simp at h
          · rw [List.mem_append] at h
            rcases h with h | h
            · simp at h
              rw [h.1]
              exact hauth
            · rw [provisionMembers_events] at h
              rcases List.mem_map.mp h with ⟨m, _, hmEq⟩
              cases hmEq

/-- Witness for the amended C4 at a concrete environment and input with a
non-empty user-provided token. -/
theorem C4_explicit_token_witness :
    (handler envBase inputUserToken).1.filter isGetCredentialsEvent = [] ∧
    ∀ a b, Event.createClient a b ∈ (handler envBase inputUserToken).1 →
      a = "user-provided-token" :=
  C4_explicit_token_amended envBase inputUserToken "user-provided-token"
    rfl (by decide)

/-- C1: once the team is created, the handler never throws — every
per-member failure is caught and recorded in `membersFailed` with the
error's message — and the loop issues one membership call per input
member, in input order, regardless of earlier failures. -/
theorem C1_member_failures_isolated (env : Env) (input : ActionInput)
    (opts : OctokitOptions) (team : TeamData)
    (h1 : strTruthy input.organization = true)
    (h2 : (getOctokitOptionsForOrg env input.token "github.com"
      input.organization).2 = .ok opts)
    (h3 : env.createTeam input.organization input.teamName input.description
      (resolvedPrivacy input) = .ok team) :
    (∃ out, (handler env input).2 = Except.ok out ∧
      ∀ m ∈ effectiveMembers input, ∀ e,
        env.addOrUpdateMembership input.organization team.slug m.username
          (resolvedRole m) = .error e →
        (⟨m.username, resolvedRole m, e⟩ : MemberFailed) ∈
          out.membersFailed) ∧
    (handler env input).1.filter isAddMembershipEvent =
      (effectiveMembers input).map (fun m =>
        Event.addMembership input.organization team.slug m.username
          (resolvedRole m)) := by
  rw [handler_team_ok env input opts team h1 h2 h3]
  constructor
  · exact ⟨_, rfl, fun m hm e he =>
      provisionMembers_failed_mem env input.organization team.slug
        (effectiveMembers input) m e hm he⟩
  · rw [List.append_assoc, List.filter_append, List.filter_append,
      provisionMembers_events, filter_addMembership_map]
    rcases getOctokitOptionsForOrg_trace env input.token "github.com"
      input.organization with ht | ht <;> rw [ht] <;> rfl

/-- Witness for C1: a two-member list where the second membership call
fails with "User not found". -/
theorem C1_member_failures_witness :
    (∃ out, (handler envBase inputMixed).2 = Except.ok out ∧
      ∀ m ∈ effectiveMembers inputMixed, ∀ e,
        envBase.addOrUpdateMembership "test-org" teamTest.slug m.username
          (resolvedRole m) = .error e →
        (⟨m.username, resolvedRole m, e⟩ : MemberFailed) ∈
          out.membersFailed) ∧
    (handler envBase inputMixed).1.filter isAddMembershipEvent =
      (effectiveMembers inputMixed).map (fun m =>
        Event.addMembership "test-org" teamTest.slug m.username
          (resolvedRole m)) :=
  C1_member_failures_isolated envBase inputMixed
    ⟨"mock-github-token", "https://api.github.com", ["nebula-preview"],
      60000⟩ teamTest rfl rfl rfl

/-- C2 counterexample: with the same username listed twice and both calls
succeeding, that username appears twice in `membersAdded` — not "exactly
once in exactly one of the two sequences" as claimed. -/
theorem C2_result_partition_counterexample :
    (handler envBase inputDup).2 = Except.ok outDup ∧
    (outDup.membersAdded.map MemberAdded.username).count "alice" +
      (outDup.membersFailed.map MemberFailed.username).count "alice" = 2 ∧
    ¬((outDup.membersAdded.map MemberAdded.username).count "alice" +
      (outDup.membersFailed.map MemberFailed.username).count "alice" =
        1) :=
  ⟨rfl, by decide, by decide⟩

/-- C2 amended: after the loop, `len(membersAdded) + len(membersFailed) =
len(members)`; each sequence's usernames form a subsequence of the input
usernames (relative input order preserved); per-username occurrence
counts across the two sequences sum to the input's occurrence count; and
when the input usernames are pairwise distinct, every input member's
username occurs exactly once across the two sequences. -/
theorem C2_result_partition_amended (env : Env) (input : ActionInput)
    (opts : OctokitOptions) (team : TeamData)
    (h1 : strTruthy input.organization = true)
    (h2 : (getOctokitOptionsForOrg env input.token "github.com"
      input.organization).2 = .ok opts)
    (h3 : env.createTeam input.organization input.teamName input.description
      (resolvedPrivacy input) = .ok team) :
    ∃ out, (handler env input).2 = Except.ok out ∧
      out.membersAdded.length + out.membersFailed.length =
        (effectiveMembers input).length ∧
      (out.membersAdded.map MemberAdded.username).Sublist
        ((effectiveMembers input).map MemberSpec.username) ∧
      (out.membersFailed.map MemberFailed.username).Sublist
        ((effectiveMembers input).map MemberSpec.username) ∧
      (∀ u, (out.membersAdded.map MemberAdded.username).count u +
        (out.membersFailed.map MemberFailed.username).count u =
        ((effectiveMembers input).map MemberSpec.username).count u) ∧
      (((effectiveMembers input).map MemberSpec.username).Nodup →
        ∀ m ∈ effectiveMembers input,
          (out.membersAdded.map MemberAdded.username).count m.username +
            (out.membersFailed.map MemberFailed.username).count m.username
            = 1) := by
  rw [handler_team_ok env input opts team h1 h2 h3]
  refine ⟨_, rfl,
    provisionMembers_length env input.organization team.slug
      (effectiveMembers input),
    provisionMembers_added_sublist env input.organization team.slug
      (effectiveMembers input),
    provisionMembers_failed_sublist env input.organization team.slug
      (effectiveMembers input),
    fun u => provisionMembers_count env input.organization team.slug
      (effectiveMembers input) u, ?_⟩
  intro hnd m hm
  rw [provisionMembers_count]
  exact List.count_eq_one_of_mem hnd (List.mem_map_of_mem _ hm)

/-- Witness for the amended C2 at a concrete environment and input. -/
theorem C2_result_partition_witness :
    ∃ out, (handler envBase inputMixed).2 = Except.ok out ∧
      out.membersAdded.length + out.membersFailed.length =
        (effectiveMembers inputMixed).length ∧
      (out.membersAdded.map MemberAdded.username).Sublist
        ((effectiveMembers inputMixed).map MemberSpec.username) ∧
      (out.membersFailed.map MemberFailed.username).Sublist
        ((effectiveMembers inputMixed).map MemberSpec.username) ∧
      (∀ u, (out.membersAdded.map MemberAdded.username).count u +
        (out.membersFailed.map MemberFailed.username).count u =
        ((effectiveMembers inputMixed).map MemberSpec.username).count u) ∧
      (((effectiveMembers inputMixed).map MemberSpec.username).Nodup →
        ∀ m ∈ effectiveMembers inputMixed,
          (out.membersAdded.map MemberAdded.username).count m.username +
            (out.membersFailed.map MemberFailed.username).count m.username
            = 1) :=
  C2_result_partition_amended envBase inputMixed
    ⟨"mock-github-token", "https://api.github.com", ["nebula-preview"],
      60000⟩ teamTest rfl rfl rfl

/-- C8: every membership call's `team_slug` is the slug returned by team
creation, so whenever that slug differs from the caller-supplied
`teamName`, the `teamName` is never used as the slug. -/
theorem C8_membership_uses_returned_slug (env : Env) (input : ActionInput)
    (opts : OctokitOptions) (team : TeamData)
    (h1 : strTruthy input.organization = true)
    (h2 : (getOctokitOptionsForOrg env input.token "github.com"
      input.organization).2 = .ok opts)
    (h3 : env.createTeam input.organization input.teamName input.description
      (resolvedPrivacy input) = .ok team) :
    ∀ o s u r, Event.addMembership o s u r ∈ (handler env input).1 →
      s = team.slug ∧
      (team.slug ≠ input.teamName → s ≠ input.teamName) := by
  rw [handler_team_ok env input opts team h1 h2 h3]
  intro o s u r hmem
  rw [List.append_assoc, List.mem_append] at hmem
  rcases hmem with h | h
  · rcases resolver_trace_mem env input.token "github.com"
      input.organization _ h with h | h <;> simp at h
  · rw [List.mem_append] at h
    rcases h with h | h
    · simp at h
    · rw [provisionMembers_events] at h
      rcases List.mem_map.mp h with ⟨m, _, hmEq⟩
      injection hmEq with e1 e2 e3 e4
      subst e2
      exact ⟨rfl, fun hne => hne⟩

/-- Witness for C8: the remote normalizes "My Team" into slug "my-team";
the membership call observed in the trace uses "my-team". -/
theorem C8_membership_uses_returned_slug_witness :
    (Event.addMembership "test-org" "my-team" "validuser" "member" ∈
      (handler envSlugDiffers inputMyTeam).1) ∧
    ("my-team" = "my-team" ∧
      ("my-team" ≠ "My Team" → "my-team" ≠ "My Team")) :=
  ⟨by decide,
   C8_membership_uses_returned_slug envSlugDiffers inputMyTeam
    ⟨"mock-github-token", "https://api.github.com", ["nebula-preview"],
      60000⟩
    ⟨99, "my-team", "https://github.com/orgs/test-org/teams/my-team",
      "My Team"⟩
    rfl rfl rfl "test-org" "my-team" "validuser" "member" (by decide)⟩

/-- C10: every integration lookup in a handler trace targets the constant
host "github.com", and every credential fetch uses the URL
`https://github.com/` followed by the URI-encoded organization — no input
field or configuration can redirect either to another host. -/
theorem C10_host_is_constant (env : Env) (input : ActionInput) (e : Event)
    (he : e ∈ (handler env input).1) :
    (isByHostEvent e = true → e = Event.byHost "github.com") ∧
    (isGetCredentialsEvent e = true →
      e = Event.getCredentials
        ("https://github.com/" ++ encodeURIComponent input.organization)) := by
  rcases handler_trace_cases env input e he with h | h | h
  · subst h
    exact ⟨fun _ => rfl, fun hc => Bool.noConfusion hc⟩
  · subst h
    exact ⟨fun hb => Bool.noConfusion hb, fun _ => rfl⟩
  · exact ⟨fun hb => by simp [h.1] at hb, fun hc => by simp [h.2] at hc⟩

/-- Witness for C10: the credential fetch observed in a concrete trace
targets github.com with the encoded organization path. -/
theorem C10_host_is_constant_witness :
    (Event.getCredentials
        ("https://github.com/" ++ encodeURIComponent "test-org") ∈
      (handler envBase inputBasic).1) ∧
    ((isByHostEvent (Event.getCredentials
        ("https://github.com/" ++ encodeURIComponent "test-org")) = true →
      Event.getCredentials
          ("https://github.com/" ++ encodeURIComponent "test-org") =
        Event.byHost "github.com") ∧
    (isGetCredentialsEvent (Event.getCredentials
        ("https://github.com/" ++ encodeURIComponent "test-org")) = true →
      Event.getCredentials
          ("https://github.com/" ++ encodeURIComponent "test-org") =
        Event.getCredentials
          ("https://github.com/" ++ encodeURIComponent "test-org"))) :=
  ⟨by decide,
   C10_host_is_constant envBase inputBasic
    (Event.getCredentials
      ("https://github.com/" ++ encodeURIComponent "test-org"))
    (by decide)⟩

end GithubTeam
